import Mathlib

/-!
# Verification of the send-connect topic lifecycle and query pipeline

Shallow embedding of the two Lambda handlers
(`amplify/functions/upload-to-llama-cloud/handler.ts`,
`amplify/functions/query-topic/handler.ts`) and the server action that
creates Topic records (`src/_actions/topic-actions.ts`).

Conventions of the embedding:
* A DynamoDB Topic item is a record of optional attributes (`TopicItem`);
  a missing attribute is `none` (JavaScript `undefined`).  The per-topic
  store is `Option TopicItem` (`none` = no item under that key).  A DynamoDB
  `UpdateCommand` with `SET` upserts: on a missing item it creates one that
  carries only the written attributes.
* External calls (S3 get, the three Llama Cloud calls, the retrieval call,
  the Anthropic call, every DynamoDB read/write) are oracles supplied in an
  environment record.  `FetchOutcome` distinguishes a thrown transport
  error from a non-2xx HTTP response (the code checks `response.ok`), whose
  successful JSON body is modelled by the documented service contract
  (`POST /pipelines` and `POST /files` return an object with an `id`).
* JavaScript truthiness on optional strings is `jsFalsy` (absent or empty),
  template interpolation of a possibly-undefined value is `jsShow`,
  `a || b` on strings is `jsOrStr`.
* The handlers return `JSON.stringify` of a literal object; the embedding
  returns that object itself (`UploadResponse`, `QueryResponse`), with
  absent keys as `none`.
* JavaScript numbers carried opaquely (relevance scores) are modelled as
  `Rat`; timestamps produced by `Date` are opaque environment strings.
-/

namespace SendConnect

/-- JavaScript truthiness test for an optional string attribute:
`undefined` and the empty string are falsy. -/
def jsFalsy : Option String → Bool
  | none => true
  | some s => s.isEmpty

/-- Template-literal rendering of a possibly-undefined string value,
as in backtick-interpolation of `topic.topicStatus`. -/
def jsShow : Option String → String
  | none => "undefined"
  | some s => s

/-- JavaScript `a || b` where `a` is an optional string: yields `b` when
`a` is `undefined` or empty. -/
def jsOrStr (a : Option String) (b : String) : String :=
  match a with
  | none => b
  | some s => if s.isEmpty then b else s

/-- One DynamoDB Topic item: the attributes written by this codebase.
Every attribute is optional, as DynamoDB items are schemaless maps. -/
structure TopicItem where
  title : Option String := none
  description : Option String := none
  s3Key : Option String := none
  topicStatus : Option String := none
  llamaCloudPipelineId : Option String := none
  llamaCloudFileId : Option String := none
  indexedAt : Option String := none
  updatedAt : Option String := none
deriving DecidableEq, Repr

/-- `topic-actions.ts` `saveTopicDocument`, step 2: create the Topic record
with `topicStatus: 'PENDING'` and no pipeline/file identifiers. -/
def createTopic (title description s3Key : String) : TopicItem :=
  { title := some title
    description := some description
    s3Key := some s3Key
    topicStatus := some "PENDING" }

/-- Upload handler step 1: `SET topicStatus = 'INDEXING', updatedAt = now`
(upsert semantics of `UpdateCommand`). -/
def updIndexing (st : Option TopicItem) (now : String) : Option TopicItem :=
  let t := st.getD {}
  some { t with topicStatus := some "INDEXING", updatedAt := some now }

/-- Upload handler step 6: `SET llamaCloudPipelineId, llamaCloudFileId,
topicStatus = 'READY', indexedAt, updatedAt`. -/
def updReady (st : Option TopicItem) (pid fid now : String) : Option TopicItem :=
  let t := st.getD {}
  some { t with
    llamaCloudPipelineId := some pid
    llamaCloudFileId := some fid
    topicStatus := some "READY"
    indexedAt := some now
    updatedAt := some now }

/-- Upload handler catch block: `SET topicStatus = 'FAILED', updatedAt`,
additionally writing `llamaCloudPipelineId` when one was created before
the failing step. -/
def updFailed (st : Option TopicItem) (pid : Option String) (now : String) :
    Option TopicItem :=
  let t := st.getD {}
  match pid with
  | some p => some { t with
      topicStatus := some "FAILED"
      llamaCloudPipelineId := some p
      updatedAt := some now }
  | none => some { t with topicStatus := some "FAILED", updatedAt := some now }

/-- Outcome of a `fetch` call whose response body, on HTTP success, parses
to a value of type `α`: the call may throw (network/parse error), return a
non-2xx status (the code checks `response.ok` and reads `response.text()`),
or succeed. -/
inductive FetchOutcome (α : Type) where
  | threw (msg : String)
  | notOk (status : Nat) (body : String)
  | ok (val : α)
deriving DecidableEq, Repr

/-- Environment of one invocation of the upload-to-llama-cloud handler:
its event arguments, its environment variables, and the outcome of each
external call, in program order. -/
structure UploadEnv where
  topicTitle : String
  tableName : Option String
  apiKey : Option String
  projectId : Option String
  nowMs : Nat
  now : String
  indexingWrite : Except String Unit
  s3Get : Except String (Option String)
  createPipeline : FetchOutcome String
  uploadFile : FetchOutcome String
  attachFile : FetchOutcome Unit
  readyWrite : Except String Unit
  failedWrite : Except String Unit
deriving Repr

/-- The JSON object returned (stringified) by the upload handler. -/
structure UploadResponse where
  success : Bool
  message : Option String := none
  pipelineId : Option String := none
  fileId : Option String := none
  pipelineName : Option String := none
  error : Option String := none
deriving DecidableEq, Repr

/-- Core of the pipeline-name slug: the global regex replacement of runs of
characters outside a-z0-9 by a single dash. `inRun` records whether the
previous character was part of such a run (already replaced). -/
def collapseRuns : Bool → List Char → List Char
  | _, [] => []
  | inRun, c :: rest =>
    if c.isLower || c.isDigit then c :: collapseRuns false rest
    else if inRun then collapseRuns true rest
    else '-' :: collapseRuns true rest

/-- Upload handler step 3 pipeline name:
lower-cased title with non-alphanumeric runs collapsed to dashes, suffixed
with the current epoch milliseconds. -/
def pipelineNameOf (title : String) (nowMs : Nat) : String :=
  String.mk (collapseRuns false (title.toLower.data)) ++ "-" ++ toString nowMs

/-- Upload handler catch block: best-effort FAILED write (its own failure
is swallowed and only logged), then the failure response. -/
def uploadCatch (env : UploadEnv) (st : Option TopicItem) (pid : Option String)
    (msg : String) : UploadResponse × Option TopicItem :=
  let st2 := match env.failedWrite with
    | .ok _ => updFailed st pid env.now
    | .error _ => st
  ({ success := false, error := some msg }, st2)

/-- The upload-to-llama-cloud handler
(`amplify/functions/upload-to-llama-cloud/handler.ts`), acting on the store
slot of the topic named by the event's `topicId`.  Returns the response
object and the final store state. -/
def uploadToLlamaCloud (env : UploadEnv) (st : Option TopicItem) :
    UploadResponse × Option TopicItem :=
  if jsFalsy env.tableName || jsFalsy env.apiKey || jsFalsy env.projectId then
    ({ success := false, error := some "Missing required environment variables" }, st)
  else
    match env.indexingWrite with
    | .error e => uploadCatch env st none e
    | .ok _ =>
      let st1 := updIndexing st env.now
      match env.s3Get with
      | .error e => uploadCatch env st1 none e
      | .ok none => uploadCatch env st1 none "Failed to download PDF from S3"
      | .ok (some _pdf) =>
        match env.createPipeline with
        | .threw e => uploadCatch env st1 none e
        | .notOk status body =>
            uploadCatch env st1 none
              ("Failed to create pipeline: " ++ toString status ++ " - " ++ body)
        | .ok pid =>
          match env.uploadFile with
          | .threw e => uploadCatch env st1 (some pid) e
          | .notOk status body =>
              uploadCatch env st1 (some pid)
                ("Failed to upload file: " ++ toString status ++ " - " ++ body)
          | .ok fid =>
            match env.attachFile with
            | .threw e => uploadCatch env st1 (some pid) e
            | .notOk status body =>
                uploadCatch env st1 (some pid)
                  ("Failed to add file to pipeline: " ++ toString status ++ " - " ++ body)
            | .ok _ =>
              match env.readyWrite with
              | .error e => uploadCatch env st1 (some pid) e
              | .ok _ =>
                ({ success := true
                   message := some "PDF uploaded and indexed successfully"
                   pipelineId := some pid
                   fileId := some fid
                   pipelineName := some (pipelineNameOf env.topicTitle env.nowMs) },
                 updReady st1 pid fid env.now)

/-- Per-node source metadata of a retrieved passage
(`extra_info` in the Llama Cloud response).  `page_label` arrives as a
number or string and is only ever template-interpolated, so it is modelled
by its rendered string. -/
structure NodeExtraInfo where
  page_label : Option String := none
  file_name : Option String := none
deriving DecidableEq, Repr

/-- The inner `node` object of a wrapped retrieval item. -/
structure RetrievalNode where
  text : Option String := none
  extra_info : Option NodeExtraInfo := none
deriving DecidableEq, Repr

/-- One element of `retrieval_nodes`.  The wrapped shape carries the
passage under `node`; the flatter diagnostic shape carries `text` and
`extra_info` at top level and has no `node` key (`node = none`). -/
structure RetrievalItem where
  node : Option RetrievalNode := none
  text : Option String := none
  extra_info : Option NodeExtraInfo := none
  score : Option Rat := none
deriving DecidableEq, Repr

/-- The parsed JSON body of a successful retrieve call; the code guards the
field with `retrieval_nodes || []`. -/
structure RetrievalResponse where
  retrieval_nodes : Option (List RetrievalItem) := none
deriving DecidableEq, Repr

/-- One block of the Anthropic message `content` array; the code reads
`content[0].type === 'text' ? content[0].text : ''`. -/
inductive ContentBlock where
  | text (s : String)
  | other
deriving DecidableEq, Repr

/-- The JavaScript `TypeError` message thrown when the flat retrieval shape
is mapped: `const node = item.node` leaves `node` undefined and the next
property read throws. -/
def undefinedNodeMsg : String :=
  "Cannot read properties of undefined (reading \x27extra_info\x27)"

/-- The `TypeError` thrown when the Anthropic message content array is
empty and `message.content[0].type` is read. -/
def undefinedBlockMsg : String :=
  "Cannot read properties of undefined (reading \x27type\x27)"

/-- The canned zero-passage answer of the query handler. -/
def noInfoAnswer : String :=
  "I couldn\x27t find relevant information in the document to answer this question."

/-- Environment of one invocation of the query-topic handler: event
arguments, environment variables, and the outcome of each external call in
program order. -/
structure QueryEnv where
  topicId : String
  queryText : String
  tableName : Option String
  llamaCloudApiKey : Option String
  anthropicApiKey : Option String
  getTopic : Except String (Option TopicItem)
  retrieval : FetchOutcome RetrievalResponse
  synthesize : Except String (List ContentBlock)
  nowIso : String
deriving Repr

/-- One citation of the query response (response-only, not persisted). -/
structure Citation where
  excerptNumber : Nat
  page : String
  fileName : String
  excerpt : String
  relevanceScore : Rat
deriving DecidableEq, Repr

/-- The `metadata` object of a successful query response.  The zero-passage
short-circuit builds it without a `queryDate` key. -/
structure QueryMetadata where
  topicTitle : Option String := none
  queryDate : Option String := none
  nodesRetrieved : Nat
deriving DecidableEq, Repr

/-- The JSON object returned (stringified) by the query handler. -/
structure QueryResponse where
  success : Bool
  answer : Option String := none
  citations : Option (List Citation) := none
  metadata : Option QueryMetadata := none
  error : Option String := none
deriving DecidableEq, Repr

/-- Result of one query invocation: the response plus which external
services were actually called (the retrieve fetch; the Anthropic
synthesis call). -/
structure QueryTrace where
  response : QueryResponse
  retrievalInvoked : Bool
  synthesisInvoked : Bool
deriving Repr

/-- Failure result of the query handler's catch block (or its
environment-variable guard). -/
def qfail (msg : String) (retr synth : Bool) : QueryTrace :=
  { response := { success := false, error := some msg }
    retrievalInvoked := retr
    synthesisInvoked := synth }

/-- Query handler step 3, the text of one context block:
`[Excerpt i+1 - Page p]\n` followed by the trimmed text, where
`p = node.extra_info?.page_label || 'Unknown'` and absent text falls back
to the empty string. -/
def contextBlockOf (i : Nat) (node : RetrievalNode) : String :=
  "[Excerpt " ++ toString (i + 1) ++ " - Page " ++
    jsOrStr (node.extra_info.bind NodeExtraInfo.page_label) "Unknown" ++ "]\n" ++
    (node.text.getD "").trim

/-- Query handler step 3, one context block; reading a flat item (no
`node`) throws. -/
def contextBlock (i : Nat) (item : RetrievalItem) : Except String String :=
  match item.node with
  | none => .error undefinedNodeMsg
  | some node => .ok (contextBlockOf i node)

/-- Query handler step 3: map `contextBlock` over the retrieved items in
order (first thrown error wins, as in a left-to-right `Array.map`). -/
def contextBlocks : Nat → List RetrievalItem → Except String (List String)
  | _, [] => .ok []
  | i, item :: rest =>
    match contextBlock i item with
    | .error e => .error e
    | .ok b =>
      match contextBlocks (i + 1) rest with
      | .error e => .error e
      | .ok bs => .ok (b :: bs)

/-- The citation excerpt rule of the code:
`node.text ? node.text.substring(0, 250) + '...' : ''` — the first 250
characters with the ellipsis marker appended whenever `text` is truthy
(non-empty), and the empty string otherwise. -/
def excerptOf : Option String → String
  | none => ""
  | some t => if t.isEmpty then "" else t.take 250 ++ "..."

/-- Query handler step 5, one citation from a wrapped node: 1-indexed
ordinal, `page_label`/`file_name` with `'Unknown'` fallbacks, excerpt per
`excerptOf`, score with `|| 0` fallback. -/
def mkCitation (i : Nat) (node : RetrievalNode) (score : Option Rat) : Citation :=
  { excerptNumber := i + 1
    page := jsOrStr (node.extra_info.bind NodeExtraInfo.page_label) "Unknown"
    fileName := jsOrStr (node.extra_info.bind NodeExtraInfo.file_name) "Unknown"
    excerpt := excerptOf node.text
    relevanceScore := score.getD 0 }

/-- Query handler step 5: build the citation array in retrieval order;
reading a flat item throws. -/
def buildCitations : Nat → List RetrievalItem → Except String (List Citation)
  | _, [] => .ok []
  | i, item :: rest =>
    match item.node with
    | none => .error undefinedNodeMsg
    | some node =>
      match buildCitations (i + 1) rest with
      | .error e => .error e
      | .ok cs => .ok (mkCitation i node item.score :: cs)

/-- Query handler step 4 answer extraction:
`message.content[0].type === 'text' ? message.content[0].text : ''`;
an empty content array makes the subscript read throw. -/
def extractAnswer : List ContentBlock → Except String String
  | [] => .error undefinedBlockMsg
  | .text s :: _ => .ok s
  | .other :: _ => .ok ""

/-- The query-topic handler
(`amplify/functions/query-topic/handler.ts`). -/
def queryTopic (env : QueryEnv) : QueryTrace :=
  if jsFalsy env.tableName || jsFalsy env.llamaCloudApiKey ||
      jsFalsy env.anthropicApiKey then
    qfail "Missing required environment variables" false false
  else
    match env.getTopic with
    | .error e => qfail e false false
    | .ok none => qfail ("Topic not found: " ++ env.topicId) false false
    | .ok (some topic) =>
      if topic.topicStatus ≠ some "READY" then
        qfail ("Topic is not ready for querying. Current status: " ++
          jsShow topic.topicStatus) false false
      else if jsFalsy topic.llamaCloudPipelineId then
        qfail "Topic does not have a Llama Cloud pipeline ID" false false
      else
        match env.retrieval with
        | .threw e => qfail e true false
        | .notOk status body =>
            qfail ("Failed to retrieve from Llama Cloud: " ++ toString status ++
              " - " ++ body) true false
        | .ok rdata =>
          let retrievalNodes := rdata.retrieval_nodes.getD []
          if retrievalNodes.isEmpty then
            { response :=
                { success := true
                  answer := some noInfoAnswer
                  citations := some []
                  metadata := some
                    { topicTitle := topic.title, nodesRetrieved := 0 } }
              retrievalInvoked := true
              synthesisInvoked := false }
          else
            match contextBlocks 0 retrievalNodes with
            | .error e => qfail e true false
            | .ok _blocks =>
              match env.synthesize with
              | .error e => qfail e true true
              | .ok content =>
                match extractAnswer content with
                | .error e => qfail e true true
                | .ok answer =>
                  match buildCitations 0 retrievalNodes with
                  | .error e => qfail e true true
                  | .ok citations =>
                    { response :=
                        { success := true
                          answer := some answer
                          citations := some citations
                          metadata := some
                            { topicTitle := topic.title
                              queryDate := some env.nowIso
                              nodesRetrieved := retrievalNodes.length } }
                      retrievalInvoked := true
                      synthesisInvoked := true }

/-- Presence (JS-truthiness) of the upload handler's three environment
variables. -/
def envVarsPresent (env : UploadEnv) : Prop :=
  jsFalsy env.tableName = false ∧ jsFalsy env.apiKey = false ∧
    jsFalsy env.projectId = false

/-- Presence (JS-truthiness) of the query handler's three environment
variables. -/
def queryEnvPresent (env : QueryEnv) : Prop :=
  jsFalsy env.tableName = false ∧ jsFalsy env.llamaCloudApiKey = false ∧
    jsFalsy env.anthropicApiKey = false

/-- The in-scope operations as a step relation on one topic's store slot:
creation of a fresh record (`saveTopicDocument` step 2, a fresh id never
overwrites an existing item), an invocation of the indexing handler with
any environment, and an invocation of the query handler (which never
writes the store). -/
inductive TopicStep : Option TopicItem → Option TopicItem → Prop
  | create (title description s3Key : String) :
      TopicStep none (some (createTopic title description s3Key))
  | index (env : UploadEnv) (st : Option TopicItem) :
      TopicStep st (uploadToLlamaCloud env st).2
  | query (env : QueryEnv) (st : Option TopicItem) : TopicStep st st

/-- A store slot reachable from the empty slot by in-scope operations. -/
def ReachableTopic (s : Option TopicItem) : Prop :=
  Relation.ReflTransGen TopicStep none s

/-- The spec's Topic invariant: the status enum is one of the four
lifecycle values, READY records carry both external identifiers, and
PENDING records carry neither. -/
def TopicInv (t : TopicItem) : Prop :=
  (t.topicStatus = some "PENDING" ∨ t.topicStatus = some "INDEXING" ∨
    t.topicStatus = some "READY" ∨ t.topicStatus = some "FAILED") ∧
  (t.topicStatus = some "READY" →
    t.llamaCloudPipelineId.isSome ∧ t.llamaCloudFileId.isSome) ∧
  (t.topicStatus = some "PENDING" →
    t.llamaCloudPipelineId = none ∧ t.llamaCloudFileId = none)

lemma topicInv_createTopic (title description s3Key : String) :
    TopicInv (createTopic title description s3Key) := by
  simp [TopicInv, createTopic]

lemma topicInv_updIndexing (st : Option TopicItem) (now : String) (t : TopicItem)
    (h : updIndexing st now = some t) : TopicInv t := by
  unfold updIndexing at h
  injection h with h
  subst h
  simp [TopicInv]

lemma topicInv_updFailed (st : Option TopicItem) (pid : Option String) (now : String)
    (t : TopicItem) (h : updFailed st pid now = some t) : TopicInv t := by
  unfold updFailed at h
  cases pid <;> (injection h with h; subst h; simp [TopicInv])

lemma topicInv_updReady (st : Option TopicItem) (pid fid now : String) (t : TopicItem)
    (h : updReady st pid fid now = some t) : TopicInv t := by
  unfold updReady at h
  injection h with h
  subst h
  simp [TopicInv]

/-- Every run of the indexing handler leaves the store slot in one of five
shapes: untouched, after the INDEXING write only, failed before the
INDEXING write, failed after it, or fully READY. -/
lemma upload_store_cases (env : UploadEnv) (st : Option TopicItem) :
    (uploadToLlamaCloud env st).2 = st ∨
    (uploadToLlamaCloud env st).2 = updIndexing st env.now ∨
    (∃ pid, (uploadToLlamaCloud env st).2 = updFailed st pid env.now) ∨
    (∃ pid,
      (uploadToLlamaCloud env st).2 = updFailed (updIndexing st env.now) pid env.now) ∨
    (∃ pid fid,
      (uploadToLlamaCloud env st).2 = updReady (updIndexing st env.now) pid fid env.now) := by
  unfold uploadToLlamaCloud uploadCatch
  dsimp only
  repeat' split
  all_goals
    first
    | exact Or.inl rfl
    | exact Or.inr (Or.inl rfl)
    | exact Or.inr (Or.inr (Or.inl ⟨none, rfl⟩))
    | exact Or.inr (Or.inr (Or.inl ⟨some _, rfl⟩))
    | exact Or.inr (Or.inr (Or.inr (Or.inl ⟨none, rfl⟩)))
    | exact Or.inr (Or.inr (Or.inr (Or.inl ⟨some _, rfl⟩)))
    | exact Or.inr (Or.inr (Or.inr (Or.inr ⟨_, _, rfl⟩)))

/-- The indexing handler preserves the Topic invariant. -/
lemma topicInv_upload (env : UploadEnv) (st : Option TopicItem)
    (ih : ∀ t, st = some t → TopicInv t) :
    ∀ t', (uploadToLlamaCloud env st).2 = some t' → TopicInv t' := by
  intro t' h
  rcases upload_store_cases env st with hc | hc | ⟨pid, hc⟩ | ⟨pid, hc⟩ | ⟨pid, fid, hc⟩
  · exact ih t' (hc.symm.trans h)
  · exact topicInv_updIndexing st env.now t' (hc.symm.trans h)
  · exact topicInv_updFailed st pid env.now t' (hc.symm.trans h)
  · exact topicInv_updFailed _ pid env.now t' (hc.symm.trans h)
  · exact topicInv_updReady _ pid fid env.now t' (hc.symm.trans h)

/-- An indexing environment in which every external call succeeds. -/
def envAllOk : UploadEnv :=
  { topicTitle := "JCQ Access Arrangements"
    tableName := some "Topic-table"
    apiKey := some "llama-key"
    projectId := some "proj-1"
    nowMs := 1700000000000
    now := "2026-01-01T00:00:00.000Z"
    indexingWrite := .ok ()
    s3Get := .ok (some "pdf-bytes")
    createPipeline := .ok "pipe-1"
    uploadFile := .ok "file-1"
    attachFile := .ok ()
    readyWrite := .ok ()
    failedWrite := .ok () }

/-- As `envAllOk`, but the pipeline-create call returns HTTP 400. -/
def envCreate400 : UploadEnv :=
  { envAllOk with createPipeline := .notOk 400 "Bad Request" }

/-- A freshly created PENDING topic record. -/
def topicPending0 : TopicItem :=
  createTopic "JCQ Access Arrangements" "JCQ guidance" "raw/jcq.pdf"

/-- The READY record produced by a fully successful indexing run on
`topicPending0` under `envAllOk`. -/
def topicReady0 : TopicItem :=
  { title := some "JCQ Access Arrangements"
    description := some "JCQ guidance"
    s3Key := some "raw/jcq.pdf"
    topicStatus := some "READY"
    llamaCloudPipelineId := some "pipe-1"
    llamaCloudFileId := some "file-1"
    indexedAt := some "2026-01-01T00:00:00.000Z"
    updatedAt := some "2026-01-01T00:00:00.000Z" }

/-- `topicReady0` after a re-indexing attempt whose pipeline-create call
fails: same record, status FAILED. -/
def topicFailed0 : TopicItem := { topicReady0 with topicStatus := some "FAILED" }

/-- C1: every reachable Topic record has a status among PENDING, INDEXING,
READY, FAILED; READY records carry both the pipeline id and the file id;
PENDING records carry neither.  Every individual store write of the
indexing handler is itself the final store state of some environment
(`upload_store_cases`), so the invariant holds after every in-scope
write. -/
theorem C1_topic_status_invariant (s : Option TopicItem) (h : ReachableTopic s) :
    ∀ t, s = some t → TopicInv t := by
  induction h with
  | refl => intro t ht; exact absurd ht (by simp)
  | tail hab hstep ih =>
    cases hstep with
    | create title description s3Key =>
      intro t ht
      injection ht with ht
      exact ht ▸ topicInv_createTopic title description s3Key
    | index env st => exact topicInv_upload env _ ih
    | query env st => exact ih

/-- Witness for C1: the invariant holds for a concrete freshly created
topic, reached by one creation step. -/
theorem C1_topic_status_invariant_witness : TopicInv topicPending0 :=
  C1_topic_status_invariant (some topicPending0)
    (Relation.ReflTransGen.single
      (TopicStep.create "JCQ Access Arrangements" "JCQ guidance" "raw/jcq.pdf"))
    topicPending0 rfl

/-- C4 counterexample: a READY record is reachable, and invoking the
indexing handler on it (with a failing pipeline-create call) is an
in-scope step that moves its status from READY to FAILED. -/
theorem C4_counterexample :
    ReachableTopic (some topicReady0) ∧
    TopicStep (some topicReady0) (some topicFailed0) ∧
    topicReady0.topicStatus = some "READY" ∧
    topicFailed0.topicStatus ≠ some "READY" := by
  refine ⟨?_, ?_, rfl, by decide⟩
  · have h : (uploadToLlamaCloud envAllOk (some topicPending0)).2 = some topicReady0 := by
      decide
    have step1 : TopicStep none (some topicPending0) :=
      TopicStep.create "JCQ Access Arrangements" "JCQ guidance" "raw/jcq.pdf"
    have step2 : TopicStep (some topicPending0) (some topicReady0) :=
      h ▸ TopicStep.index envAllOk (some topicPending0)
    exact Relation.ReflTransGen.tail (Relation.ReflTransGen.single step1) step2
  · have h : (uploadToLlamaCloud envCreate400 (some topicReady0)).2 = some topicFailed0 := by
      decide
    exact h ▸ TopicStep.index envCreate400 (some topicReady0)

/-- C4 amended: the only in-scope step that moves a Topic out of READY is
an invocation of the indexing handler on that Topic; creation and the
query operation never do. -/
theorem C4_ready_exit_only_by_reindex (s s' : Option TopicItem) (h : TopicStep s s')
    (t t' : TopicItem) (hs : s = some t) (hs' : s' = some t')
    (hr : t.topicStatus = some "READY") (hne : t'.topicStatus ≠ some "READY") :
    ∃ env, s' = (uploadToLlamaCloud env s).2 := by
  cases h with
  | create title description s3Key => exact absurd hs (by simp)
  | index env st => exact ⟨env, rfl⟩
  | query env st =>
    exfalso
    apply hne
    have ht : t = t' := by rw [hs] at hs'; injection hs'
    exact ht ▸ hr

/-- Witness for the amended C4, at the concrete READY-to-FAILED step. -/
theorem C4_ready_exit_witness :
    ∃ env, (some topicFailed0 : Option TopicItem) =
      (uploadToLlamaCloud env (some topicReady0)).2 := by
  have h : (uploadToLlamaCloud envCreate400 (some topicReady0)).2 = some topicFailed0 := by
    decide
  exact C4_ready_exit_only_by_reindex (some topicReady0) (some topicFailed0)
    (h ▸ TopicStep.index envCreate400 (some topicReady0))
    topicReady0 topicFailed0 rfl rfl rfl (by decide)

/-- Did the blob-download step succeed (no throw, and a body present)? -/
def s3OkB (env : UploadEnv) : Bool :=
  match env.s3Get with
  | .ok (some _) => true
  | _ => false

/-- Did the pipeline-create call succeed? -/
def createOkB (env : UploadEnv) : Bool :=
  match env.createPipeline with
  | .ok _ => true
  | _ => false

/-- Did the file-upload call succeed? -/
def uploadOkB (env : UploadEnv) : Bool :=
  match env.uploadFile with
  | .ok _ => true
  | _ => false

/-- Did the file-attach call succeed? -/
def attachOkB (env : UploadEnv) : Bool :=
  match env.attachFile with
  | .ok _ => true
  | _ => false

/-- The pipeline id created during a run (the pipeline-create call is only
reached after a successful download, and only its success sets the
handler's `pipelineId` variable). -/
def createdPipelineId (env : UploadEnv) : Option String :=
  match env.s3Get with
  | .ok (some _) =>
    match env.createPipeline with
    | .ok p => some p
    | _ => none
  | _ => none

/-- C2: if the environment variables are present, all three store writes
succeed, and at least one of the four indexing steps fails, the Topic ends
FAILED (never INDEXING); the run's created pipeline id is persisted
exactly when the pipeline-create step succeeded, and the file id is never
written by the failure path. -/
theorem C2_single_step_failure (env : UploadEnv) (t : TopicItem)
    (henv : envVarsPresent env)
    (hw1 : env.indexingWrite = .ok ())
    (_hw2 : env.readyWrite = .ok ())
    (hw3 : env.failedWrite = .ok ())
    (hfail : (s3OkB env && createOkB env && uploadOkB env && attachOkB env) = false) :
    ∃ t', (uploadToLlamaCloud env (some t)).2 = some t' ∧
      t'.topicStatus = some "FAILED" ∧
      t'.topicStatus ≠ some "INDEXING" ∧
      t'.llamaCloudPipelineId =
        (match createdPipelineId env with
          | some p => some p
          | none => t.llamaCloudPipelineId) ∧
      t'.llamaCloudFileId = t.llamaCloudFileId := by
  obtain ⟨h1, h2, h3⟩ := henv
  rcases hs3 : env.s3Get with e | _ | b
  · simp [uploadToLlamaCloud, uploadCatch, updIndexing, updFailed, createdPipelineId,
      h1, h2, h3, hw1, hw3, hs3]
  · simp [uploadToLlamaCloud, uploadCatch, updIndexing, updFailed, createdPipelineId,
      h1, h2, h3, hw1, hw3, hs3]
  · rcases hcp : env.createPipeline with e | ⟨s, body⟩ | pid
    · simp [uploadToLlamaCloud, uploadCatch, updIndexing, updFailed, createdPipelineId,
        h1, h2, h3, hw1, hw3, hs3, hcp]
    · simp [uploadToLlamaCloud, uploadCatch, updIndexing, updFailed, createdPipelineId,
        h1, h2, h3, hw1, hw3, hs3, hcp]
    · rcases hup : env.uploadFile with e | ⟨s, body⟩ | fid
      · simp [uploadToLlamaCloud, uploadCatch, updIndexing, updFailed, createdPipelineId,
          h1, h2, h3, hw1, hw3, hs3, hcp, hup]
      · simp [uploadToLlamaCloud, uploadCatch, updIndexing, updFailed, createdPipelineId,
          h1, h2, h3, hw1, hw3, hs3, hcp, hup]
      · rcases hat : env.attachFile with e | ⟨s, body⟩ | u
        · simp [uploadToLlamaCloud, uploadCatch, updIndexing, updFailed, createdPipelineId,
            h1, h2, h3, hw1, hw3, hs3, hcp, hup, hat]
        · simp [uploadToLlamaCloud, uploadCatch, updIndexing, updFailed, createdPipelineId,
            h1, h2, h3, hw1, hw3, hs3, hcp, hup, hat]
        · exfalso
          simp [s3OkB, createOkB, uploadOkB, attachOkB, hs3, hcp, hup, hat] at hfail

/-- Witness for C2: indexing a fresh PENDING topic whose pipeline-create
call returns HTTP 400 yields a FAILED record with no pipeline id and no
file id. -/
theorem C2_single_step_failure_witness :
    ∃ t', (uploadToLlamaCloud envCreate400 (some topicPending0)).2 = some t' ∧
      t'.topicStatus = some "FAILED" ∧
      t'.topicStatus ≠ some "INDEXING" ∧
      t'.llamaCloudPipelineId =
        (match createdPipelineId envCreate400 with
          | some p => some p
          | none => topicPending0.llamaCloudPipelineId) ∧
      t'.llamaCloudFileId = topicPending0.llamaCloudFileId :=
  C2_single_step_failure envCreate400 topicPending0 ⟨rfl, rfl, rfl⟩ rfl rfl rfl (by decide)

/-- A READY topic record as the query handler expects to find it. -/
def topicReadyQ : TopicItem :=
  { title := some "JCQ Access Arrangements"
    topicStatus := some "READY"
    llamaCloudPipelineId := some "pipe-1"
    llamaCloudFileId := some "file-1" }

/-- A wrapped (normal-shape) retrieval item: short passage on page 12. -/
def itemShort : RetrievalItem :=
  { node := some
      { text := some "Access arrangements must be processed before the exam."
        extra_info := some { page_label := some "12", file_name := some "jcq.pdf" } }
    score := some 1 }

/-- A flat (diagnostic-shape) retrieval item: the passage fields sit at
top level and there is no `node` wrapper. -/
def itemFlat : RetrievalItem :=
  { text := some "Access arrangements must be processed before the exam."
    extra_info := some { page_label := some "12", file_name := some "jcq.pdf" }
    score := some 1 }

/-- A query environment with a READY topic whose retrieval returns the one
wrapped item `itemShort` and whose synthesis call succeeds. -/
def qenvShort : QueryEnv :=
  { topicId := "topic-1"
    queryText := "What are access arrangements?"
    tableName := some "Topic-table"
    llamaCloudApiKey := some "llama-key"
    anthropicApiKey := some "anthropic-key"
    getTopic := .ok (some topicReadyQ)
    retrieval := .ok { retrieval_nodes := some [itemShort] }
    synthesize := .ok [ContentBlock.text "They must be processed early (Page 12)."]
    nowIso := "2026-01-02T03:04:05.678Z" }

/-- As `qenvShort`, but retrieval returns zero passages. -/
def qenvZero : QueryEnv :=
  { qenvShort with retrieval := .ok { retrieval_nodes := some [] } }

/-- As `qenvShort`, but retrieval returns the flat-shape item. -/
def qenvFlat : QueryEnv :=
  { qenvShort with retrieval := .ok { retrieval_nodes := some [itemFlat] } }

/-- As `qenvShort`, but the stored topic is FAILED. -/
def qenvNotReady : QueryEnv :=
  { qenvShort with
      getTopic := .ok (some { topicReadyQ with topicStatus := some "FAILED" }) }

/-- C5: querying a READY topic (pipeline id present) whose retrieval
succeeds with zero passages returns success with the canned answer, empty
citations, `nodesRetrieved = 0` metadata, and never invokes the synthesis
call. -/
theorem C5_zero_passages_short_circuit (env : QueryEnv) (t : TopicItem)
    (rdata : RetrievalResponse)
    (henv : queryEnvPresent env)
    (hget : env.getTopic = .ok (some t))
    (hready : t.topicStatus = some "READY")
    (hpipe : jsFalsy t.llamaCloudPipelineId = false)
    (hret : env.retrieval = .ok rdata)
    (hzero : rdata.retrieval_nodes.getD [] = []) :
    queryTopic env =
      { response :=
          { success := true
            answer := some noInfoAnswer
            citations := some []
            metadata := some { topicTitle := t.title, nodesRetrieved := 0 } }
        retrievalInvoked := true
        synthesisInvoked := false } := by
  obtain ⟨h1, h2, h3⟩ := henv
  simp [queryTopic, h1, h2, h3, hget, hready, hpipe, hret, hzero]

/-- Witness for C5 at the concrete zero-passage environment. -/
theorem C5_zero_passages_witness :
    queryTopic qenvZero =
      { response :=
          { success := true
            answer := some noInfoAnswer
            citations := some []
            metadata := some { topicTitle := topicReadyQ.title, nodesRetrieved := 0 } }
        retrievalInvoked := true
        synthesisInvoked := false } :=
  C5_zero_passages_short_circuit qenvZero topicReadyQ
    { retrieval_nodes := some [] } ⟨rfl, rfl, rfl⟩ rfl rfl rfl rfl rfl

/-- C7: a topic whose status is not READY yields a failure response naming
the stored status and retrieval is never invoked; a missing topic fails
before the status check; a READY topic without a pipeline id fails before
retrieval. -/
theorem C7_precondition_checks :
    (∀ env t, queryEnvPresent env → env.getTopic = .ok (some t) →
      t.topicStatus ≠ some "READY" →
      queryTopic env =
        qfail ("Topic is not ready for querying. Current status: " ++
          jsShow t.topicStatus) false false) ∧
    (∀ env, queryEnvPresent env → env.getTopic = .ok none →
      queryTopic env = qfail ("Topic not found: " ++ env.topicId) false false) ∧
    (∀ env t, queryEnvPresent env → env.getTopic = .ok (some t) →
      t.topicStatus = some "READY" → jsFalsy t.llamaCloudPipelineId = true →
      queryTopic env = qfail "Topic does not have a Llama Cloud pipeline ID" false false) := by
  refine ⟨?_, ?_, ?_⟩
  · intro env t henv hget hne
    obtain ⟨h1, h2, h3⟩ := henv
    simp [queryTopic, h1, h2, h3, hget, hne]
  · intro env henv hget
    obtain ⟨h1, h2, h3⟩ := henv
    simp [queryTopic, h1, h2, h3, hget]
  · intro env t henv hget hready hpipe
    obtain ⟨h1, h2, h3⟩ := henv
    simp [queryTopic, h1, h2, h3, hget, hready, hpipe]

/-- Witness for C7: querying the FAILED topic of `qenvNotReady` fails with
the message naming FAILED and no retrieval call. -/
theorem C7_precondition_checks_witness :
    queryTopic qenvNotReady =
      qfail ("Topic is not ready for querying. Current status: " ++
        jsShow ({ topicReadyQ with topicStatus := some "FAILED" } : TopicItem).topicStatus)
        false false :=
  C7_precondition_checks.1 qenvNotReady
    { topicReadyQ with topicStatus := some "FAILED" }
    ⟨rfl, rfl, rfl⟩ rfl (by decide)

/-- The context-block list the handler builds when every retrieved item is
wrapped (total restatement of the step-3 map for wrapped inputs). -/
def blocksOf : Nat → List RetrievalItem → List String
  | _, [] => []
  | i, item :: rest => contextBlockOf i (item.node.getD {}) :: blocksOf (i + 1) rest

lemma contextBlocks_ok_of_wrapped (items : List RetrievalItem)
    (h : ∀ x ∈ items, x.node.isSome) :
    ∀ i, contextBlocks i items = Except.ok (blocksOf i items) := by
  induction items with
  | nil => intro i; rfl
  | cons a l ih =>
    intro i
    obtain ⟨node, hn⟩ := Option.isSome_iff_exists.mp (h a (List.mem_cons_self a l))
    simp [contextBlocks, contextBlock, blocksOf, hn,
      ih (fun x hx => h x (List.mem_cons_of_mem a hx)) (i + 1)]

lemma contextBlocks_error_of_flat (items : List RetrievalItem)
    (h : ∃ x ∈ items, x.node = none) :
    ∀ i, contextBlocks i items = Except.error undefinedNodeMsg := by
  induction items with
  | nil => obtain ⟨x, hx, _⟩ := h; exact absurd hx (by simp)
  | cons a l ih =>
    intro i
    rcases hn : a.node with _ | node
    · simp [contextBlocks, contextBlock, hn]
    · obtain ⟨x, hx, hxnode⟩ := h
      rcases List.mem_cons.mp hx with rfl | hx'
      · exact absurd hn (by simp [hxnode])
      · simp [contextBlocks, contextBlock, hn, ih ⟨x, hx', hxnode⟩ (i + 1)]

lemma extractAnswer_ok_of_ne_nil (content : List ContentBlock) (h : content ≠ []) :
    ∃ ans, extractAnswer content = Except.ok ans := by
  cases content with
  | nil => exact absurd rfl h
  | cons b rest =>
    cases b with
    | text s => exact ⟨s, rfl⟩
    | other => exact ⟨"", rfl⟩

/-- The citation list the handler builds when every retrieved item is
wrapped (total restatement of the step-5 map for wrapped inputs). -/
def citationsOf : Nat → List RetrievalItem → List Citation
  | _, [] => []
  | i, item :: rest =>
    mkCitation i (item.node.getD {}) item.score :: citationsOf (i + 1) rest

lemma buildCitations_ok_of_wrapped (items : List RetrievalItem)
    (h : ∀ x ∈ items, x.node.isSome) :
    ∀ i, buildCitations i items = Except.ok (citationsOf i items) := by
  induction items with
  | nil => intro i; rfl
  | cons a l ih =>
    intro i
    obtain ⟨node, hn⟩ := Option.isSome_iff_exists.mp (h a (List.mem_cons_self a l))
    simp [buildCitations, citationsOf, hn,
      ih (fun x hx => h x (List.mem_cons_of_mem a hx)) (i + 1)]

lemma citationsOf_length (items : List RetrievalItem) :
    ∀ i, (citationsOf i items).length = items.length := by
  induction items with
  | nil => intro i; rfl
  | cons a l ih => intro i; simp [citationsOf, ih]

lemma citationsOf_getElem (items : List RetrievalItem) :
    ∀ i j, (citationsOf i items)[j]? =
      items[j]?.map (fun it => mkCitation (i + j) (it.node.getD {}) it.score) := by
  induction items with
  | nil => intro i j; simp [citationsOf]
  | cons a l ih =>
    intro i j
    cases j with
    | zero => simp [citationsOf]
    | succ j' =>
      have e : i + 1 + j' = i + (j' + 1) := by omega
      have h := ih (i + 1) j'
      simp only [citationsOf, List.getElem?_cons_succ]
      rw [h, e]

lemma buildCitations_ok_length (items : List RetrievalItem) :
    ∀ i cs, buildCitations i items = Except.ok cs → cs.length = items.length := by
  induction items with
  | nil =>
    intro i cs h
    injection h with h
    subst h
    rfl
  | cons a l ih =>
    intro i cs h
    rcases hn : a.node with _ | node
    · rw [buildCitations, hn] at h
      simp at h
    · rw [buildCitations, hn] at h
      rcases hb : buildCitations (i + 1) l with e | cs'
      · rw [hb] at h; simp at h
      · rw [hb] at h
        simp at h
        simp [← h, ih (i + 1) cs' hb]

set_option maxRecDepth 8000 in
/-- C3 counterexample: for a retrieved passage of 54 characters (well under
250), the produced citation still carries the ellipsis marker — the code
appends `'...'` whenever the text is non-empty, not only when it exceeds
the truncation length. -/
theorem C3_counterexample :
    ("Access arrangements must be processed before the exam.").length ≤ 250 ∧
    (queryTopic qenvShort).response.citations =
      some [{ excerptNumber := 1
              page := "12"
              fileName := "jcq.pdf"
              excerpt := "Access arrangements must be processed before the exam...."
              relevanceScore := 1 }] ∧
    "Access arrangements must be processed before the exam...." ≠
      "Access arrangements must be processed before the exam." := by
  refine ⟨by decide, by decide, by decide⟩

/-- C3 amended: querying a READY topic whose retrieval returns N ≥ 1
wrapped passages (with a successful synthesis call) produces exactly N
citations in retrieval order, the j-th carrying `excerptNumber = j + 1`
and the excerpt `excerptOf` of its passage text — the first 250 characters
with an ellipsis appended whenever the text is non-empty (not only when it
exceeds 250). -/
theorem C3_amended_citation_list (env : QueryEnv) (t : TopicItem)
    (items : List RetrievalItem) (content : List ContentBlock)
    (henv : queryEnvPresent env)
    (hget : env.getTopic = .ok (some t))
    (hready : t.topicStatus = some "READY")
    (hpipe : jsFalsy t.llamaCloudPipelineId = false)
    (hret : env.retrieval = .ok { retrieval_nodes := some items })
    (hne : items ≠ [])
    (hwrapped : ∀ x ∈ items, x.node.isSome)
    (hsynth : env.synthesize = .ok content)
    (hcontent : content ≠ []) :
    ∃ cs, (queryTopic env).response.citations = some cs ∧
      (queryTopic env).response.success = true ∧
      cs.length = items.length ∧
      ∀ j, j < items.length →
        ∃ it node, items[j]? = some it ∧ it.node = some node ∧
          cs[j]? = some (mkCitation j node it.score) ∧
          (mkCitation j node it.score).excerptNumber = j + 1 ∧
          (mkCitation j node it.score).excerpt = excerptOf node.text := by
  obtain ⟨h1, h2, h3⟩ := henv
  have hbs := contextBlocks_ok_of_wrapped items hwrapped 0
  obtain ⟨ans, hans⟩ := extractAnswer_ok_of_ne_nil content hcontent
  have hbc := buildCitations_ok_of_wrapped items hwrapped 0
  refine ⟨citationsOf 0 items, ?_, ?_, citationsOf_length items 0, ?_⟩
  · simp [queryTopic, h1, h2, h3, hget, hready, hpipe, hret, hne, hbs, hsynth, hans, hbc]
  · simp [queryTopic, h1, h2, h3, hget, hready, hpipe, hret, hne, hbs, hsynth, hans, hbc]
  · intro j hj
    have hjq : items[j]? = some items[j] := List.getElem?_eq_getElem hj
    obtain ⟨node, hn⟩ :=
      Option.isSome_iff_exists.mp (hwrapped items[j] (List.getElem_mem hj))
    refine ⟨items[j], node, hjq, hn, ?_, rfl, rfl⟩
    rw [citationsOf_getElem items 0 j, hjq]
    simp [hn]

/-- Witness for the amended C3 at the concrete one-passage environment. -/
theorem C3_amended_citation_list_witness :
    ∃ cs, (queryTopic qenvShort).response.citations = some cs ∧
      (queryTopic qenvShort).response.success = true ∧
      cs.length = ([itemShort] : List RetrievalItem).length ∧
      ∀ j, j < ([itemShort] : List RetrievalItem).length →
        ∃ it node, ([itemShort] : List RetrievalItem)[j]? = some it ∧
          it.node = some node ∧
          cs[j]? = some (mkCitation j node it.score) ∧
          (mkCitation j node it.score).excerptNumber = j + 1 ∧
          (mkCitation j node it.score).excerpt = excerptOf node.text :=
  C3_amended_citation_list qenvShort topicReadyQ [itemShort]
    [ContentBlock.text "They must be processed early (Page 12)."]
    ⟨rfl, rfl, rfl⟩ rfl rfl rfl rfl (by decide) (by decide) rfl (by decide)

/-- C6 counterexample: a retrieval response in the flat shape (passage
fields at top level, no `node` wrapper) does not produce a successful
cited response — the handler throws while formatting and returns a failure
response. -/
theorem C6_counterexample :
    itemFlat.node = none ∧
    itemFlat.text.isSome ∧
    (queryTopic qenvFlat).response.success = false ∧
    (queryTopic qenvFlat).response.error = some undefinedNodeMsg ∧
    (queryTopic qenvFlat).response.citations = none := by
  refine ⟨rfl, rfl, by decide, by decide, by decide⟩

/-- C6 amended: the query handler tolerates only the wrapped retrieval
shape.  Wrapped passages yield a successful cited response; any flat
passage (no `node` wrapper) makes the handler throw a `TypeError` while
formatting, producing a failure response without calling synthesis. -/
theorem C6_amended_wrapped_only :
    (∀ env t items content, queryEnvPresent env → env.getTopic = .ok (some t) →
      t.topicStatus = some "READY" → jsFalsy t.llamaCloudPipelineId = false →
      env.retrieval = .ok { retrieval_nodes := some items } → items ≠ [] →
      (∀ x ∈ items, x.node.isSome) → env.synthesize = .ok content → content ≠ [] →
      (queryTopic env).response.success = true ∧
        (queryTopic env).response.citations.isSome) ∧
    (∀ env t items, queryEnvPresent env → env.getTopic = .ok (some t) →
      t.topicStatus = some "READY" → jsFalsy t.llamaCloudPipelineId = false →
      env.retrieval = .ok { retrieval_nodes := some items } →
      (∃ x ∈ items, x.node = none) →
      (queryTopic env).response.success = false ∧
        (queryTopic env).response.error = some undefinedNodeMsg ∧
        (queryTopic env).synthesisInvoked = false) := by
  constructor
  · intro env t items content henv hget hready hpipe hret hne hwrapped hsynth hcontent
    obtain ⟨h1, h2, h3⟩ := henv
    have hbs := contextBlocks_ok_of_wrapped items hwrapped 0
    obtain ⟨ans, hans⟩ := extractAnswer_ok_of_ne_nil content hcontent
    have hbc := buildCitations_ok_of_wrapped items hwrapped 0
    constructor <;>
      simp [queryTopic, h1, h2, h3, hget, hready, hpipe, hret, hne, hbs, hsynth, hans, hbc]
  · intro env t items henv hget hready hpipe hret hflat
    obtain ⟨h1, h2, h3⟩ := henv
    have hne : items ≠ [] := by
      obtain ⟨x, hx, _⟩ := hflat
      intro hnil
      rw [hnil] at hx
      exact absurd hx (by simp)
    have herr := contextBlocks_error_of_flat items hflat 0
    refine ⟨?_, ?_, ?_⟩ <;>
      simp [queryTopic, h1, h2, h3, hget, hready, hpipe, hret, hne, herr, qfail]

/-- Witness for the amended C6: the wrapped item succeeds, the flat item
fails, at the concrete environments. -/
theorem C6_amended_wrapped_only_witness :
    ((queryTopic qenvShort).response.success = true ∧
      (queryTopic qenvShort).response.citations.isSome) ∧
    ((queryTopic qenvFlat).response.success = false ∧
      (queryTopic qenvFlat).response.error = some undefinedNodeMsg ∧
      (queryTopic qenvFlat).synthesisInvoked = false) :=
  ⟨C6_amended_wrapped_only.1 qenvShort topicReadyQ [itemShort]
      [ContentBlock.text "They must be processed early (Page 12)."]
      ⟨rfl, rfl, rfl⟩ rfl rfl rfl rfl (by decide) (by decide) rfl (by decide),
    C6_amended_wrapped_only.2 qenvFlat topicReadyQ [itemFlat]
      ⟨rfl, rfl, rfl⟩ rfl rfl rfl rfl ⟨itemFlat, by decide, rfl⟩⟩

/-- Every query invocation ends in one of three shapes: a failure response
(from the guard or the catch block), the zero-passage short circuit, or a
full synthesized response whose citations come from `buildCitations`. -/
lemma queryTopic_cases (env : QueryEnv) :
    (∃ msg, queryTopic env = qfail msg false false ∨
      queryTopic env = qfail msg true false ∨
      queryTopic env = qfail msg true true) ∨
    (∃ ttl, queryTopic env =
      { response :=
          { success := true
            answer := some noInfoAnswer
            citations := some []
            metadata := some { topicTitle := ttl, nodesRetrieved := 0 } }
        retrievalInvoked := true
        synthesisInvoked := false }) ∨
    (∃ ttl ans items cs, buildCitations 0 items = Except.ok cs ∧
      queryTopic env =
      { response :=
          { success := true
            answer := some ans
            citations := some cs
            metadata := some
              { topicTitle := ttl
                queryDate := some env.nowIso
                nodesRetrieved := items.length } }
        retrievalInvoked := true
        synthesisInvoked := true }) := by
  unfold queryTopic
  dsimp only
  repeat' split
  all_goals first
    | exact Or.inl ⟨_, Or.inl rfl⟩
    | exact Or.inl ⟨_, Or.inr (Or.inl rfl)⟩
    | exact Or.inl ⟨_, Or.inr (Or.inr rfl)⟩
    | exact Or.inr (Or.inl ⟨_, rfl⟩)
    | (rename_i cs heq; exact Or.inr (Or.inr ⟨_, _, _, cs, heq, rfl⟩))

/-- Every indexing invocation returns either a failure response carrying an
error message or the fixed success response with pipeline and file ids. -/
lemma upload_response_cases (env : UploadEnv) (st : Option TopicItem) :
    (∃ msg, (uploadToLlamaCloud env st).1 =
      { success := false, error := some msg }) ∨
    (∃ pid fid name, (uploadToLlamaCloud env st).1 =
      { success := true
        message := some "PDF uploaded and indexed successfully"
        pipelineId := some pid
        fileId := some fid
        pipelineName := some name }) := by
  unfold uploadToLlamaCloud uploadCatch
  dsimp only
  repeat' split
  all_goals first
    | exact Or.inl ⟨_, rfl⟩
    | exact Or.inr ⟨_, _, _, rfl⟩

/-- C8: successful query responses carry metadata and citations with
`nodesRetrieved` equal to the citation count; failure responses carry
neither metadata nor citations. -/
theorem C8_nodes_retrieved_eq_citation_count (env : QueryEnv) :
    ((queryTopic env).response.success = true →
      ∃ m cs, (queryTopic env).response.metadata = some m ∧
        (queryTopic env).response.citations = some cs ∧
        m.nodesRetrieved = cs.length) ∧
    ((queryTopic env).response.success = false →
      (queryTopic env).response.metadata = none ∧
      (queryTopic env).response.citations = none) := by
  rcases queryTopic_cases env with ⟨msg, hc | hc | hc⟩ | ⟨ttl, hc⟩ |
    ⟨ttl, ans, items, cs, hbc, hc⟩ <;> rw [hc]
  · exact ⟨fun h => by simp [qfail] at h, fun _ => ⟨rfl, rfl⟩⟩
  · exact ⟨fun h => by simp [qfail] at h, fun _ => ⟨rfl, rfl⟩⟩
  · exact ⟨fun h => by simp [qfail] at h, fun _ => ⟨rfl, rfl⟩⟩
  · exact ⟨fun _ => ⟨_, [], rfl, rfl, rfl⟩, fun h => by simp at h⟩
  · exact ⟨fun _ => ⟨_, cs, rfl, rfl, (buildCitations_ok_length items 0 cs hbc).symm⟩,
      fun h => by simp at h⟩

/-- Witness for C8 at the concrete one-passage environment. -/
theorem C8_nodes_retrieved_witness :
    ((queryTopic qenvShort).response.success = true →
      ∃ m cs, (queryTopic qenvShort).response.metadata = some m ∧
        (queryTopic qenvShort).response.citations = some cs ∧
        m.nodesRetrieved = cs.length) ∧
    ((queryTopic qenvShort).response.success = false →
      (queryTopic qenvShort).response.metadata = none ∧
      (queryTopic qenvShort).response.citations = none) :=
  C8_nodes_retrieved_eq_citation_count qenvShort

/-- C9: both handlers are total converters of failures — every invocation,
whatever the outcome of each internal step, returns either a success
response or a failure response carrying an error message; no error
escapes. -/
theorem C9_no_exception_escapes :
    (∀ (env : UploadEnv) (st : Option TopicItem),
      ((uploadToLlamaCloud env st).1.success = true ∧
        (uploadToLlamaCloud env st).1.error = none) ∨
      ((uploadToLlamaCloud env st).1.success = false ∧
        ∃ msg, (uploadToLlamaCloud env st).1.error = some msg)) ∧
    (∀ env : QueryEnv,
      ((queryTopic env).response.success = true ∧
        (queryTopic env).response.error = none) ∨
      ((queryTopic env).response.success = false ∧
        ∃ msg, (queryTopic env).response.error = some msg)) := by
  constructor
  · intro env st
    rcases upload_response_cases env st with ⟨msg, hc⟩ | ⟨pid, fid, name, hc⟩ <;> rw [hc]
    · exact Or.inr ⟨rfl, msg, rfl⟩
    · exact Or.inl ⟨rfl, rfl⟩
  · intro env
    rcases queryTopic_cases env with ⟨msg, hc | hc | hc⟩ | ⟨ttl, hc⟩ |
      ⟨ttl, ans, items, cs, hbc, hc⟩ <;> rw [hc]
    · exact Or.inr ⟨rfl, msg, rfl⟩
    · exact Or.inr ⟨rfl, msg, rfl⟩
    · exact Or.inr ⟨rfl, msg, rfl⟩
    · exact Or.inl ⟨rfl, rfl⟩
    · exact Or.inl ⟨rfl, rfl⟩

/-- C10: the zero-passage short-circuit metadata carries only the topic
title and `nodesRetrieved = 0`, omitting `queryDate`; every synthesized
response's metadata carries `queryDate`, the handler's
`new Date().toISOString()` value. -/
theorem C10_query_date_presence :
    (∀ (env : QueryEnv) (t : TopicItem) (rdata : RetrievalResponse),
      queryEnvPresent env → env.getTopic = .ok (some t) →
      t.topicStatus = some "READY" → jsFalsy t.llamaCloudPipelineId = false →
      env.retrieval = .ok rdata → rdata.retrieval_nodes.getD [] = [] →
      (queryTopic env).response.metadata =
        some { topicTitle := t.title, queryDate := none, nodesRetrieved := 0 }) ∧
    (∀ env : QueryEnv, (queryTopic env).response.success = true →
      (queryTopic env).synthesisInvoked = true →
      ∃ m, (queryTopic env).response.metadata = some m ∧
        m.queryDate = some env.nowIso) := by
  constructor
  · intro env t rdata henv hget hready hpipe hret hzero
    obtain ⟨h1, h2, h3⟩ := henv
    simp [queryTopic, h1, h2, h3, hget, hready, hpipe, hret, hzero]
  · intro env hs hsynth
    rcases queryTopic_cases env with ⟨msg, hc | hc | hc⟩ | ⟨ttl, hc⟩ |
      ⟨ttl, ans, items, cs, hbc, hc⟩
    · rw [hc] at hs; simp [qfail] at hs
    · rw [hc] at hs; simp [qfail] at hs
    · rw [hc] at hs; simp [qfail] at hs
    · rw [hc] at hsynth; simp at hsynth
    · rw [hc]; exact ⟨_, rfl, rfl⟩

/-- Witness for C10: the concrete zero-passage query omits `queryDate`;
the concrete synthesized query carries it. -/
theorem C10_query_date_witness :
    (queryTopic qenvZero).response.metadata =
      some { topicTitle := topicReadyQ.title, queryDate := none, nodesRetrieved := 0 } ∧
    ∃ m, (queryTopic qenvShort).response.metadata = some m ∧
      m.queryDate = some qenvShort.nowIso :=
  ⟨C10_query_date_presence.1 qenvZero topicReadyQ { retrieval_nodes := some [] }
      ⟨rfl, rfl, rfl⟩ rfl rfl rfl rfl rfl,
    C10_query_date_presence.2 qenvShort (by decide) (by decide)⟩

end SendConnect
